import Mathlib

/-!
Shallow embedding of the core geometric algebra of the `physdes` library:
intervals, points, vectors and the rotated-space `MergeObj`, translated from
`src/interval.rs`, `src/generic.rs`, `src/point.rs` and `src/merge_obj.rs`.

`i32` values are modelled as `Int` (the overflow-free reading) except where a
claim is about overflow itself; there the i32 range, checked subtraction and
two's-complement wrapping are modelled explicitly.  `u32` results are modelled
as `Nat`, with the Rust `as u32` bit-reinterpretation modelled as reduction
modulo 2^32.
-/

namespace Physdes

/-- `Interval<T>` from src/interval.rs: closed range `[lb, ub]`; the phantom
marker field carries no data and is omitted.  `lb > ub` is the legal
"invalid/empty" sentinel. -/
structure Interval (α : Type) where
  lb : α
  ub : α
deriving DecidableEq

/-- `Point<T1, T2>` from src/point.rs. -/
structure Point (α β : Type) where
  xcoord : α
  ycoord : β
deriving DecidableEq

/-- `Vector2<T1, T2>` from src/vector2.rs (fields named `x_`, `y_` as in the
source). -/
structure Vector2 (α β : Type) where
  x_ : α
  y_ : β
deriving DecidableEq

/-- `MergeObj<T1, T2>` from src/merge_obj.rs: wraps a `Point` whose
coordinates live in the 45°-rotated space. -/
structure MergeObj (α β : Type) where
  impl_ : Point α β
deriving DecidableEq

/-! ## Scalar (`i32`) implementations from src/generic.rs and src/interval.rs -/

/-- `impl MinDist<i32> for i32` (src/generic.rs): `(self - other).unsigned_abs()`,
in the overflow-free `Int` reading. -/
def I32.min_dist_with (a b : Int) : Nat :=
  (a - b).natAbs

/-- `impl Displacement<i32> for i32` (src/generic.rs): `self - other`. -/
def I32.displace (a b : Int) : Int :=
  a - b

/-- `impl Enlarge<i32> for i32` (src/interval.rs): `[self - alpha, self + alpha]`. -/
def I32.enlarge_with (a alpha : Int) : Interval Int :=
  ⟨a - alpha, a + alpha⟩

/-! ## Interval operations from src/interval.rs -/

/-- `Interval::is_invalid`: `lb > ub`. -/
def Interval.is_invalid (a : Interval Int) : Bool :=
  a.lb > a.ub

/-- `impl Overlap<Interval<T>> for Interval<T>`:
`self.ub >= other.lb && other.ub >= self.lb`. -/
def Interval.overlaps (a b : Interval Int) : Bool :=
  a.ub ≥ b.lb && b.ub ≥ a.lb

/-- `impl Intersect<Interval<T>> for Interval<T>`: `[max lb, min ub]`. -/
def Interval.intersect_with (a b : Interval Int) : Interval Int :=
  ⟨max a.lb b.lb, min a.ub b.ub⟩

/-- `impl Enlarge<T> for Interval<T>`: `[lb - alpha, ub + alpha]`. -/
def Interval.enlarge_with (a : Interval Int) (alpha : Int) : Interval Int :=
  ⟨a.lb - alpha, a.ub + alpha⟩

/-- `impl Displacement<Interval<T>> for Interval<T>`: each bound displaced
independently via the element `displace`. -/
def Interval.displace (a b : Interval Int) : Interval Int :=
  ⟨I32.displace a.lb b.lb, I32.displace a.ub b.ub⟩

/-- `impl MinDist<Interval<i32>> for Interval<i32>` (src/interval.rs), in the
overflow-free `Int` reading: the exact gap between the nearer endpoints. -/
def Interval.min_dist_with (a b : Interval Int) : Nat :=
  if a.ub < b.lb then (b.lb - a.ub).toNat
  else if b.ub < a.lb then (a.lb - b.ub).toNat
  else 0

/-- `impl PartialOrd for Interval<T>` (src/interval.rs): `Less` if
`self.ub < other.lb`, `Greater` if `other.ub < self.lb`, else `Equal`. -/
def Interval.weak_cmp (a b : Interval Int) : Option Ordering :=
  if a.ub < b.lb then some Ordering.lt
  else if b.ub < a.lb then some Ordering.gt
  else some Ordering.eq

/-! ## The faithful i32 model of the distance subtractions (for the
numeric-safety claim).  In Rust the subtractions in `min_dist_with` are done
in plain `i32`: with overflow checks on, leaving the i32 range panics; with
checks off the value wraps modulo 2^32 and the subsequent `as u32` cast
reinterprets the two's-complement bits. -/

/-- Smallest `i32` value, `-2^31`. -/
def i32Min : Int := -2147483648

/-- Largest `i32` value, `2^31 - 1`. -/
def i32Max : Int := 2147483647

/-- A bound is representable as an `i32`. -/
def inI32 (x : Int) : Prop := i32Min ≤ x ∧ x ≤ i32Max

instance (x : Int) : Decidable (inI32 x) := by
  unfold inI32; infer_instance

/-- Checked i32 subtraction: `none` when `a - b` leaves the i32 range
(the overflow panic of a checked build). -/
def checkedSubI32 (a b : Int) : Option Int :=
  if i32Min ≤ a - b ∧ a - b ≤ i32Max then some (a - b) else none

/-- Two's-complement wrap of an integer into the i32 range (the release-mode
result of an overflowing i32 subtraction). -/
def wrapI32 (x : Int) : Int :=
  (x + 2147483648) % 4294967296 - 2147483648

/-- The Rust `as u32` cast: bit reinterpretation, i.e. reduction mod 2^32. -/
def castU32 (x : Int) : Nat :=
  (x % 4294967296).toNat

/-- `Interval<i32>::min_dist_with` under checked (overflow-panicking)
i32 subtraction: `none` models the panic. -/
def Interval.min_dist_checked (a b : Interval Int) : Option Nat :=
  if a.ub < b.lb then (checkedSubI32 b.lb a.ub).map castU32
  else if b.ub < a.lb then (checkedSubI32 a.lb b.ub).map castU32
  else some 0

/-- `Interval<i32>::min_dist_with` under release (two's-complement wrapping)
i32 subtraction followed by the `as u32` cast. -/
def Interval.min_dist_release (a b : Interval Int) : Nat :=
  if a.ub < b.lb then castU32 (wrapI32 (b.lb - a.ub))
  else if b.ub < a.lb then castU32 (wrapI32 (a.lb - b.ub))
  else 0

/-- `impl MinDist<i32> for Interval<i32>` (src/interval.rs), overflow-free
reading. -/
def Interval.min_dist_with_pt (a : Interval Int) (o : Int) : Nat :=
  if a.ub < o then (o - a.ub).toNat
  else if o < a.lb then (a.lb - o).toNat
  else 0

/-- `impl MinDist<i32> for Interval<i32>` under release i32 semantics. -/
def Interval.min_dist_with_pt_release (a : Interval Int) (o : Int) : Nat :=
  if a.ub < o then castU32 (wrapI32 (o - a.ub))
  else if o < a.lb then castU32 (wrapI32 (a.lb - o))
  else 0

/-- `impl MinDist<Interval<i32>> for i32` (src/interval.rs), overflow-free
reading. -/
def I32.min_dist_with_iv (x : Int) (o : Interval Int) : Nat :=
  if x < o.lb then (o.lb - x).toNat
  else if o.ub < x then (x - o.ub).toNat
  else 0

/-- `impl MinDist<Interval<i32>> for i32` under release i32 semantics. -/
def I32.min_dist_with_iv_release (x : Int) (o : Interval Int) : Nat :=
  if x < o.lb then castU32 (wrapI32 (o.lb - x))
  else if o.ub < x then castU32 (wrapI32 (x - o.ub))
  else 0

/-! ## Point operations from src/point.rs (at scalar `i32` coordinates) -/

/-- `Point::min_dist_with`: sum of the per-coordinate distances. -/
def Point.min_dist_with (p q : Point Int Int) : Nat :=
  I32.min_dist_with p.xcoord q.xcoord + I32.min_dist_with p.ycoord q.ycoord

/-- `Point::displace`: per-coordinate `displace`, packaged as a `Vector2`. -/
def Point.displace (p q : Point Int Int) : Vector2 Int Int :=
  ⟨I32.displace p.xcoord q.xcoord, I32.displace p.ycoord q.ycoord⟩

/-- `Point + Vector2` (src/point.rs): coordinate-wise addition. -/
def Point.add (p : Point Int Int) (v : Vector2 Int Int) : Point Int Int :=
  ⟨p.xcoord + v.x_, p.ycoord + v.y_⟩

/-- `Point - Vector2` (src/point.rs): coordinate-wise subtraction. -/
def Point.sub (p : Point Int Int) (v : Vector2 Int Int) : Point Int Int :=
  ⟨p.xcoord - v.x_, p.ycoord - v.y_⟩

/-- `Point::intersect_with` at interval coordinates: per-coordinate interval
intersection. -/
def Point.intersect_iv (p q : Point (Interval Int) (Interval Int)) :
    Point (Interval Int) (Interval Int) :=
  ⟨Interval.intersect_with p.xcoord q.xcoord, Interval.intersect_with p.ycoord q.ycoord⟩

/-! ## MergeObj operations from src/merge_obj.rs -/

/-- `MergeObj::construct(x, y)`: rotates original coordinates into
`(x + y, x - y)`. -/
def MergeObj.construct (x y : Int) : MergeObj Int Int :=
  ⟨⟨x + y, x - y⟩⟩

/-- `MergeObj::min_dist_with` at scalar coordinates: max of the
per-rotated-axis scalar distances. -/
def MergeObj.min_dist_scalar (a b : MergeObj Int Int) : Nat :=
  max (I32.min_dist_with a.impl_.xcoord b.impl_.xcoord)
    (I32.min_dist_with a.impl_.ycoord b.impl_.ycoord)

/-- `MergeObj::min_dist_with` at interval coordinates: max of the
per-rotated-axis interval distances. -/
def MergeObj.min_dist_with (a b : MergeObj (Interval Int) (Interval Int)) : Nat :=
  max (Interval.min_dist_with a.impl_.xcoord b.impl_.xcoord)
    (Interval.min_dist_with a.impl_.ycoord b.impl_.ycoord)

/-- `MergeObj::enlarge_with` at interval coordinates: enlarge both rotated
axes by `alpha`. -/
def MergeObj.enlarge_with (a : MergeObj (Interval Int) (Interval Int)) (alpha : Int) :
    MergeObj (Interval Int) (Interval Int) :=
  ⟨⟨Interval.enlarge_with a.impl_.xcoord alpha, Interval.enlarge_with a.impl_.ycoord alpha⟩⟩

/-- `MergeObj::intersect_with` at interval coordinates: per-axis interval
intersection of the wrapped points. -/
def MergeObj.intersect_with (a b : MergeObj (Interval Int) (Interval Int)) :
    MergeObj (Interval Int) (Interval Int) :=
  ⟨Point.intersect_iv a.impl_ b.impl_⟩

/-- `MergeObj::merge_with` (src/merge_obj.rs):
`alpha = min_dist`, `half = alpha / 2` (Nat division),
enlarge `self` by `half` and `other` by `alpha - half`, then intersect. -/
def MergeObj.merge_with (a b : MergeObj (Interval Int) (Interval Int)) :
    MergeObj (Interval Int) (Interval Int) :=
  let alpha := MergeObj.min_dist_with a b
  let half := alpha / 2
  let trr1 := MergeObj.enlarge_with a (Int.ofNat half)
  let trr2 := MergeObj.enlarge_with b (Int.ofNat (alpha - half))
  MergeObj.intersect_with trr1 trr2

/-! ## Theorems -/

/-- C1: `merge_with` is exactly the four-step computation
`alpha = min_dist; half = alpha / 2; trr1 = enlarge self half;
trr2 = enlarge other (alpha - half); intersect trr1 trr2` (with the remainder
of the integer division left on the second operand), and the concrete example
merging `([200,600],[200,600])` with `([500,900],[500,900])` yields
`([500,600],[500,600])`. -/
theorem C1_merge_with_is_four_step :
    (∀ a b : MergeObj (Interval Int) (Interval Int),
      MergeObj.merge_with a b =
        MergeObj.intersect_with
          (MergeObj.enlarge_with a (Int.ofNat (MergeObj.min_dist_with a b / 2)))
          (MergeObj.enlarge_with b
            (Int.ofNat (MergeObj.min_dist_with a b - MergeObj.min_dist_with a b / 2)))) ∧
    MergeObj.merge_with ⟨⟨⟨200, 600⟩, ⟨200, 600⟩⟩⟩ ⟨⟨⟨500, 900⟩, ⟨500, 900⟩⟩⟩
      = ⟨⟨⟨500, 600⟩, ⟨500, 600⟩⟩⟩ :=
  ⟨fun _ _ => rfl, by decide⟩

/-- C2: `MergeObj::min_dist_with` takes the maximum (not the sum) of the
per-rotated-axis distances, and through `construct`'s 45° rotation this
recovers the Manhattan distance of the original coordinates:
`max (|Δx + Δy|) (|Δx - Δy|) = |Δx| + |Δy|`; concretely
`construct 4 5` vs `construct 7 9` gives 7. -/
theorem C2_min_dist_is_manhattan :
    (∀ a b : MergeObj Int Int,
      MergeObj.min_dist_scalar a b =
        max (I32.min_dist_with a.impl_.xcoord b.impl_.xcoord)
          (I32.min_dist_with a.impl_.ycoord b.impl_.ycoord)) ∧
    (∀ a b : MergeObj (Interval Int) (Interval Int),
      MergeObj.min_dist_with a b =
        max (Interval.min_dist_with a.impl_.xcoord b.impl_.xcoord)
          (Interval.min_dist_with a.impl_.ycoord b.impl_.ycoord)) ∧
    (∀ i1 j1 i2 j2 : Int,
      MergeObj.min_dist_scalar (MergeObj.construct i1 j1) (MergeObj.construct i2 j2) =
        (i1 - i2).natAbs + (j1 - j2).natAbs) ∧
    MergeObj.min_dist_scalar (MergeObj.construct 4 5) (MergeObj.construct 7 9) = 7 := by
  refine ⟨fun _ _ => rfl, fun _ _ => rfl, ?_, by decide⟩
  intro i1 j1 i2 j2
  simp only [MergeObj.min_dist_scalar, MergeObj.construct, I32.min_dist_with]
  omega

/-- C3 counterexample: with invalid intervals admitted (as the claim insists),
the equivalence fails: for `A = [5,1]` and `B = [0,10]` the intersection
`[5,1]` is invalid although `A.overlaps(B)` is true. -/
theorem C3_cex_invalid_inputs :
    ¬ (((Interval.intersect_with ⟨5, 1⟩ ⟨0, 10⟩).is_invalid = true) ↔
        ¬ (Interval.overlaps ⟨5, 1⟩ ⟨0, 10⟩ = true)) := by
  decide

/-- C3 (amended): for valid intervals `A` and `B` (`lb ≤ ub` on both sides),
`A.intersect_with(B).is_invalid()` holds iff `!A.overlaps(B)`. -/
theorem C3_intersect_invalid_iff_not_overlaps (a b : Interval Int)
    (ha : a.lb ≤ a.ub) (hb : b.lb ≤ b.ub) :
    ((Interval.intersect_with a b).is_invalid = true) ↔
      ¬ (Interval.overlaps a b = true) := by
  simp only [Interval.intersect_with, Interval.is_invalid, Interval.overlaps,
    decide_eq_true_eq, Bool.and_eq_true, not_and_or, not_le]
  omega

/-- C3 witness: the amended equivalence at the concrete valid pair
`[3,5]` and `[7,8]`. -/
theorem C3_witness :
    (3 : Int) ≤ 5 ∧ (7 : Int) ≤ 8 ∧
      (((Interval.intersect_with ⟨3, 5⟩ ⟨7, 8⟩).is_invalid = true) ↔
        ¬ (Interval.overlaps ⟨3, 5⟩ ⟨7, 8⟩ = true)) :=
  ⟨by decide, by decide,
    C3_intersect_invalid_iff_not_overlaps ⟨3, 5⟩ ⟨7, 8⟩ (by decide) (by decide)⟩

/-- C4 counterexample: the claimed `other - self` convention fails already for
scalars: `1.displace(&2)` is `-1` in the code (`self - other`), not
`2 - 1 = 1`. -/
theorem C4_cex_convention :
    I32.displace 1 2 = -1 ∧ I32.displace 1 2 ≠ (2 : Int) - 1 := by
  decide

/-- C4 (amended): `displace` follows the `self - other` convention:
`a.displace(&b) = a - b` for scalars; for intervals each bound is displaced
independently by `self - other`; for points it yields the `Vector2` of
per-coordinate `self - other` differences. -/
theorem C4_displace_self_minus_other :
    (∀ a b : Int, I32.displace a b = a - b) ∧
    (∀ a b : Interval Int, Interval.displace a b = ⟨a.lb - b.lb, a.ub - b.ub⟩) ∧
    (∀ p q : Point Int Int,
      Point.displace p q = ⟨p.xcoord - q.xcoord, p.ycoord - q.ycoord⟩) :=
  ⟨fun _ _ => rfl, fun _ _ => rfl, fun _ _ => rfl⟩

/-- C5 counterexample: the subtraction in `min_dist_with` is performed in
plain `i32` with no widening or checking, so with checked (panicking)
arithmetic the adversarial pair `[i32::MIN, i32::MIN]` vs
`[i32::MAX, i32::MAX]` overflows instead of producing the exact distance
`4294967295` (which fits in `u32`). -/
theorem C5_cex_overflow :
    Interval.min_dist_checked ⟨i32Min, i32Min⟩ ⟨i32Max, i32Max⟩ = none ∧
      i32Max - i32Min = 4294967295 := by
  constructor
  · decide
  · decide

/-- C5 (amended): the distance subtractions are done in plain `i32`
(no widening, no checking); they stay inside `i32` only when the gap is at
most `i32::MAX`, in which case the checked computation returns the exact
distance — while under release (two's-complement wrapping) semantics the
`as u32` cast cancels the wrap, so `min_dist_with` on `Interval<i32>` pairs
and on `i32`/`Interval<i32>` pairs returns the exact mathematical distance
for all representable bounds. -/
theorem C5_min_dist_exactness (a b : Interval Int) (x : Int)
    (halb : inI32 a.lb) (haub : inI32 a.ub)
    (hblb : inI32 b.lb) (hbub : inI32 b.ub) (hx : inI32 x) :
    Interval.min_dist_release a b = Interval.min_dist_with a b ∧
    Interval.min_dist_with_pt_release a x = Interval.min_dist_with_pt a x ∧
    I32.min_dist_with_iv_release x b = I32.min_dist_with_iv x b ∧
    (Interval.min_dist_with a b ≤ i32Max.toNat →
      Interval.min_dist_checked a b = some (Interval.min_dist_with a b)) := by
  obtain ⟨h1, h2⟩ := halb
  obtain ⟨h3, h4⟩ := haub
  obtain ⟨h5, h6⟩ := hblb
  obtain ⟨h7, h8⟩ := hbub
  obtain ⟨h9, h10⟩ := hx
  simp only [i32Min, i32Max] at *
  refine ⟨?_, ?_, ?_, ?_⟩
  · simp only [Interval.min_dist_release, Interval.min_dist_with, castU32, wrapI32]
    split_ifs with hc1 hc2 <;> omega
  · simp only [Interval.min_dist_with_pt_release, Interval.min_dist_with_pt, castU32, wrapI32]
    split_ifs with hc1 hc2 <;> omega
  · simp only [I32.min_dist_with_iv_release, I32.min_dist_with_iv, castU32, wrapI32]
    split_ifs with hc1 hc2 <;> omega
  · intro hle
    simp only [Interval.min_dist_with, i32Max] at hle
    simp only [Interval.min_dist_checked, checkedSubI32, Interval.min_dist_with]
    split_ifs <;> simp_all [Option.map, castU32, i32Min, i32Max] <;> omega

/-- C5 witness: the amended statement at the concrete in-range inputs
`a = [3,5]`, `b = [2000000000, 2100000000]`, `x = 7`. -/
theorem C5_witness :
    inI32 (3 : Int) ∧ inI32 (5 : Int) ∧ inI32 (2000000000 : Int) ∧
      inI32 (2100000000 : Int) ∧ inI32 (7 : Int) ∧
      (Interval.min_dist_release ⟨3, 5⟩ ⟨2000000000, 2100000000⟩ =
          Interval.min_dist_with ⟨3, 5⟩ ⟨2000000000, 2100000000⟩ ∧
        Interval.min_dist_with_pt_release ⟨3, 5⟩ 7 =
          Interval.min_dist_with_pt ⟨3, 5⟩ 7 ∧
        I32.min_dist_with_iv_release 7 ⟨2000000000, 2100000000⟩ =
          I32.min_dist_with_iv 7 ⟨2000000000, 2100000000⟩ ∧
        (Interval.min_dist_with ⟨3, 5⟩ ⟨2000000000, 2100000000⟩ ≤ i32Max.toNat →
          Interval.min_dist_checked ⟨3, 5⟩ ⟨2000000000, 2100000000⟩ =
            some (Interval.min_dist_with ⟨3, 5⟩ ⟨2000000000, 2100000000⟩))) :=
  ⟨by decide, by decide, by decide, by decide, by decide,
    C5_min_dist_exactness ⟨3, 5⟩ ⟨2000000000, 2100000000⟩ 7
      (by decide) (by decide) (by decide) (by decide) (by decide)⟩

/-- Helper: enlarging an interval by zero is the identity. -/
theorem interval_enlarge_zero (a : Interval Int) : Interval.enlarge_with a 0 = a := by
  cases a
  simp [Interval.enlarge_with]

/-- Helper: enlarging a `MergeObj` by zero is the identity. -/
theorem mergeobj_enlarge_zero (m : MergeObj (Interval Int) (Interval Int)) :
    MergeObj.enlarge_with m 0 = m := by
  cases m with
  | mk p =>
    cases p
    simp [MergeObj.enlarge_with, interval_enlarge_zero]

/-- Helper: interval `min_dist_with` is symmetric on valid intervals. -/
theorem min_dist_sym_of_valid (a b : Interval Int) (ha : a.lb ≤ a.ub) (hb : b.lb ≤ b.ub) :
    Interval.min_dist_with a b = Interval.min_dist_with b a := by
  simp only [Interval.min_dist_with]
  split_ifs <;> omega

/-- C6: interval `partial_cmp` is the weak order `Less` iff `self.ub < other.lb`,
`Greater` iff `other.ub < self.lb`, `Equal` otherwise; structural equality
compares both bounds exactly; and the overlapping pair `[1,5]`, `[2,3]`
compares `Equal` while being structurally different. -/
theorem C6_weak_order_vs_equality :
    (∀ a b : Interval Int,
      Interval.weak_cmp a b =
        if a.ub < b.lb then some Ordering.lt
        else if b.ub < a.lb then some Ordering.gt
        else some Ordering.eq) ∧
    (∀ a b : Interval Int, a = b ↔ a.lb = b.lb ∧ a.ub = b.ub) ∧
    (Interval.weak_cmp ⟨1, 5⟩ ⟨2, 3⟩ = some Ordering.eq ∧
      (⟨1, 5⟩ : Interval Int) ≠ ⟨2, 3⟩) := by
  refine ⟨fun _ _ => rfl, ?_, by decide, by decide⟩
  intro a b
  cases a
  cases b
  simp [Interval.mk.injEq]

/-- C7: when the two merge objects are already at distance zero on both
rotated axes, `merge_with` degenerates to the plain intersection of the two
unenlarged objects. -/
theorem C7_zero_alpha_merge_is_intersect (a b : MergeObj (Interval Int) (Interval Int))
    (h : MergeObj.min_dist_with a b = 0) :
    MergeObj.merge_with a b = MergeObj.intersect_with a b := by
  simp only [MergeObj.merge_with, h, Nat.zero_div, Nat.sub_zero]
  norm_num [mergeobj_enlarge_zero]

/-- C7 witness: the overlapping concrete pair `([0,100],[0,100])` and
`([100,200],[100,200])` has distance 0 and merges to its intersection. -/
theorem C7_witness :
    MergeObj.min_dist_with ⟨⟨⟨0, 100⟩, ⟨0, 100⟩⟩⟩ ⟨⟨⟨100, 200⟩, ⟨100, 200⟩⟩⟩ = 0 ∧
      MergeObj.merge_with ⟨⟨⟨0, 100⟩, ⟨0, 100⟩⟩⟩ ⟨⟨⟨100, 200⟩, ⟨100, 200⟩⟩⟩ =
        MergeObj.intersect_with ⟨⟨⟨0, 100⟩, ⟨0, 100⟩⟩⟩ ⟨⟨⟨100, 200⟩, ⟨100, 200⟩⟩⟩ :=
  ⟨by decide,
    C7_zero_alpha_merge_is_intersect ⟨⟨⟨0, 100⟩, ⟨0, 100⟩⟩⟩ ⟨⟨⟨100, 200⟩, ⟨100, 200⟩⟩⟩
      (by decide)⟩

/-- C8: enlargement by zero is the identity: for intervals
`A.enlarge_with(0) = A`, and for a scalar `a` the output is the degenerate
interval `[a - 0, a + 0] = [a, a]`. -/
theorem C8_enlarge_zero_identity :
    (∀ a : Interval Int, Interval.enlarge_with a 0 = a) ∧
    (∀ x : Int, I32.enlarge_with x 0 = ⟨x, x⟩) := by
  refine ⟨interval_enlarge_zero, ?_⟩
  intro x
  simp [I32.enlarge_with]

/-- C9 counterexample: on invalid intervals `min_dist_with` is not symmetric:
for `A = [10,0]` and `B = [5,3]` the code gives `A.min_dist_with(B) = 5` but
`B.min_dist_with(A) = 7`. -/
theorem C9_cex_invalid_intervals :
    Interval.min_dist_with ⟨10, 0⟩ ⟨5, 3⟩ = 5 ∧
      Interval.min_dist_with ⟨5, 3⟩ ⟨10, 0⟩ = 7 ∧
      Interval.min_dist_with ⟨10, 0⟩ ⟨5, 3⟩ ≠ Interval.min_dist_with ⟨5, 3⟩ ⟨10, 0⟩ := by
  refine ⟨by decide, by decide, by decide⟩

/-- C9 (amended): `min_dist_with` is symmetric on valid intervals
(`lb ≤ ub` on both sides), on points with scalar coordinates, on scalar
`MergeObj`s, and on interval `MergeObj`s whose four axis intervals are
valid. -/
theorem C9_min_dist_symmetry :
    (∀ a b : Interval Int, a.lb ≤ a.ub → b.lb ≤ b.ub →
      Interval.min_dist_with a b = Interval.min_dist_with b a) ∧
    (∀ p q : Point Int Int, Point.min_dist_with p q = Point.min_dist_with q p) ∧
    (∀ a b : MergeObj Int Int,
      MergeObj.min_dist_scalar a b = MergeObj.min_dist_scalar b a) ∧
    (∀ a b : MergeObj (Interval Int) (Interval Int),
      a.impl_.xcoord.lb ≤ a.impl_.xcoord.ub → a.impl_.ycoord.lb ≤ a.impl_.ycoord.ub →
      b.impl_.xcoord.lb ≤ b.impl_.xcoord.ub → b.impl_.ycoord.lb ≤ b.impl_.ycoord.ub →
      MergeObj.min_dist_with a b = MergeObj.min_dist_with b a) := by
  refine ⟨min_dist_sym_of_valid, ?_, ?_, ?_⟩
  · intro p q
    simp only [Point.min_dist_with, I32.min_dist_with]
    omega
  · intro a b
    simp only [MergeObj.min_dist_scalar, I32.min_dist_with]
    omega
  · intro a b hax hay hbx hby
    simp only [MergeObj.min_dist_with]
    rw [min_dist_sym_of_valid a.impl_.xcoord b.impl_.xcoord hax hbx,
      min_dist_sym_of_valid a.impl_.ycoord b.impl_.ycoord hay hby]

/-- C9 witness: symmetry instantiated at the concrete valid intervals
`[1,2]` and `[5,9]`. -/
theorem C9_witness :
    (1 : Int) ≤ 2 ∧ (5 : Int) ≤ 9 ∧
      Interval.min_dist_with ⟨1, 2⟩ ⟨5, 9⟩ = Interval.min_dist_with ⟨5, 9⟩ ⟨1, 2⟩ :=
  ⟨by decide, by decide, C9_min_dist_symmetry.1 ⟨1, 2⟩ ⟨5, 9⟩ (by decide) (by decide)⟩

/-- C10: translation round-trip: for every point `P` and vector `V`,
`(P + V) - V = P`, with both operations plain coordinate-wise arithmetic. -/
theorem C10_translation_round_trip :
    ∀ (p : Point Int Int) (v : Vector2 Int Int), Point.sub (Point.add p v) v = p := by
  intro p v
  cases p
  cases v
  simp [Point.add, Point.sub]

end Physdes
